import Mathlib

/-!
Verification of the chat-synchronizer, auto-scroll, send-flow and survey
validation logic of the `idt-frontend` client (source: `src/apis/invite.ts`
and the chat page / survey page modules packed with it).

The TypeScript is shallowly embedded: React `useState` values become fields
of explicit state structures, each `useEffect` body / event handler becomes a
pure function or a labelled transition, and the cooperative event loop of the
browser becomes a step relation on that state.
-/

/-- The `from` field of a chat `Message` (`{ id: number; nickname: string }`).
`from` is a reserved word in Lean, so the field lives in its own structure
named after its role. -/
structure Sender where
  id : Nat
  nickname : String
deriving DecidableEq, Repr

/-- `type Message` from the chat page: id (monotone sync cursor), sender,
creation time (epoch ms), type tag (0 = ordinary content), optional content. -/
structure Message where
  id : Nat
  sender : Sender
  createdAt : Nat
  type : Nat
  content : Option String
deriving DecidableEq, Repr

/-- `go()` in `useMessages`:
`let sinceId = 0; if (messages && messages.length) sinceId = messages[messages.length - 1].id;` -/
def computeSinceId : Option (List Message) → Nat
  | none => 0
  | some ms =>
    match ms.getLast? with
    | none => 0
    | some m => m.id

/-- The closure state captured by one invocation of `go()`: the `messages`
value the effect closed over (used both for `sinceId` and for the
`!messages` append condition). -/
structure ActiveFetch where
  snapshot : Option (List Message)
deriving DecidableEq, Repr

/-- The state owned by the `useMessages` hook, together with the bookkeeping
the embedding needs for in-flight requests:
`active` is the current (not cancelled) invocation of `go()`, if any;
`staleCount` counts invocations whose cleanup already ran (`canceled = true`)
but whose network request has not yet settled;
`timerArmed` mirrors the `setInterval` effect, which installs the 2000 ms
interval exactly while `isLoading` is false. -/
structure HookState where
  isLoading : Bool
  error : Option Nat
  messages : Option (List Message)
  active : Option ActiveFetch
  staleCount : Nat
  timerArmed : Bool
deriving DecidableEq, Repr

/-- Hook state on mount: `useState(true)`, `useState(null)`, `useState(null)`,
no request issued yet, and the interval effect returns early while
`isLoading` is true. -/
def initHookState : HookState :=
  { isLoading := true
    error := none
    messages := none
    active := none
    staleCount := 0
    timerArmed := false }

/-- One run of the fetch effect (any change of `chatId` or `reloadCounter`):
the cleanup of the previous run sets its `canceled` flag (the previous active
fetch, if any, becomes stale), then `go()` snapshots `messages`, issues the
request, and runs `setIsLoading(true); setError(null)`.  The interval effect
sees `isLoading = true` and keeps no timer installed. -/
def effectRun (s : HookState) : HookState :=
  { s with
    staleCount := s.staleCount + (if s.active.isSome then 1 else 0)
    active := some ⟨s.messages⟩
    isLoading := true
    error := none
    timerArmed := false }

/-- Events of the cooperative event loop that drive `useMessages`. -/
inductive HookEvent
  /-- the initial effect run once `chatId` is set -/
  | mount
  /-- the effect re-runs because `chatId` changed -/
  | chatChange
  /-- the effect re-runs because `reload()` bumped `reloadCounter` -/
  | manualReload
  /-- the 2000 ms interval fires and bumps `reloadCounter` -/
  | timerFire
  /-- the active (not cancelled) request resolves with a response -/
  | resolveOk (response : List Message)
  /-- the active (not cancelled) request rejects -/
  | resolveErr (e : Nat)
  /-- a cancelled request resolves successfully -/
  | staleResolveOk
  /-- a cancelled request rejects -/
  | staleResolveErr (e : Nat)
deriving DecidableEq, Repr

/-- The transition function of the hook.  `none` means the event is not
enabled in the given state.

* An active request that resolves runs lines 501-509 of the source with
  `canceled = false`: the append condition `if (!messages || m.length)` tests
  the closure snapshot, `setMessages((oldM) => oldM ? oldM.concat(m) : m)`
  uses the current value, and `setIsLoading(false)` re-installs the interval.
* An active request that rejects runs the `catch`: `setError(e)` then
  `setIsLoading(false)`.
* A stale (cancelled) request that resolves hits `if (canceled) return;` and
  changes nothing — the early return also skips `setIsLoading(false)`.
* A stale request that rejects runs the `catch` unguarded: the source checks
  `canceled` only on the success path, so `setError(e)` and
  `setIsLoading(false)` still execute. -/
def hookStep (s : HookState) : HookEvent → Option HookState
  | .mount => some (effectRun s)
  | .chatChange => some (effectRun s)
  | .manualReload => some (effectRun s)
  | .timerFire => if s.timerArmed then some (effectRun s) else none
  | .resolveOk response =>
    match s.active with
    | none => none
    | some f =>
      some { s with
        active := none
        messages :=
          if f.snapshot.isNone || !response.isEmpty then
            some (s.messages.getD [] ++ response)
          else s.messages
        isLoading := false
        timerArmed := true }
  | .resolveErr e =>
    match s.active with
    | none => none
    | some _ =>
      some { s with active := none, error := some e, isLoading := false, timerArmed := true }
  | .staleResolveOk =>
    if s.staleCount > 0 then some { s with staleCount := s.staleCount - 1 } else none
  | .staleResolveErr e =>
    if s.staleCount > 0 then
      some { s with
        staleCount := s.staleCount - 1
        error := some e
        isLoading := false
        timerArmed := true }
    else none

/-- States of the hook reachable through a given event trace. -/
inductive ReachableVia : List HookEvent → HookState → Prop
  | init : ReachableVia [] initHookState
  | step {tr : List HookEvent} {s : HookState} {e : HookEvent} {s' : HookState} :
      ReachableVia tr s → hookStep s e = some s' → ReachableVia (tr ++ [e]) s'

/-- The events corresponding to the unguarded `catch` of a cancelled fetch. -/
def isStaleErr : HookEvent → Bool
  | .staleResolveErr _ => true
  | _ => false

/-- Strictly ascending by id: the shape the message list keeps when the
server honours the `sinceId` contract. -/
def msgsSorted (l : List Message) : Prop :=
  l.Pairwise (fun a b => a.id < b.id)

instance (l : List Message) : Decidable (msgsSorted l) := by
  unfold msgsSorted
  infer_instance

/-- The scroll-related state of `ChatPage`: `useState(true)` for
`firstScroll`, `useState(true)` for `autoScroll`, `useState(-1)` for
`lastAutoScrolledMessageId`. -/
structure ChatScrollState where
  firstScroll : Bool
  autoScroll : Bool
  lastAutoScrolledMessageId : Int
deriving DecidableEq, Repr

/-- Scroll state on mount. -/
def initChatScrollState : ChatScrollState :=
  { firstScroll := true, autoScroll := true, lastAutoScrolledMessageId := -1 }

/-- `messages?.length ? messages[messages.length - 1].id : 0` — the newest
message id shown to the scroll effects (0 while `messages` is `null` or
empty; as an `Int` because the recorded id starts at -1). -/
def lastMessageIdOf : Option (List Message) → Int
  | some ms =>
    match ms.getLast? with
    | some m => (m.id : Int)
    | none => 0
  | none => 0

/-- The first-load effect (guards in source order: `firstScroll`, `messages`,
`isLoading`, `scrollEl`); returns the new state and whether the programmatic
scroll-to-bottom fired.  Note it does not consult `autoScroll`. -/
def firstScrollEffect (s : ChatScrollState)
    (messagesPresent : Bool) (isLoading : Bool) (scrollElPresent : Bool) :
    ChatScrollState × Bool :=
  if s.firstScroll && messagesPresent && !isLoading && scrollElPresent then
    ({ s with firstScroll := false }, true)
  else (s, false)

/-- The auto-scroll effect: fires exactly when auto-scroll is enabled, the
scrolling element exists, and the newest id differs from the recorded one;
on firing it records the triggering id. -/
def autoScrollEffect (s : ChatScrollState) (scrollElPresent : Bool)
    (lastMessageId : Int) : ChatScrollState × Bool :=
  if s.autoScroll && scrollElPresent && lastMessageId != s.lastAutoScrolledMessageId then
    ({ s with lastAutoScrolledMessageId := lastMessageId }, true)
  else (s, false)

/-- External stimuli of the auto-scroll effect over a component lifetime:
either the scroll-position effect rewrites `autoScroll`, or the effect runs
with the current newest message id. -/
inductive ScrollEvent
  | setAuto (b : Bool)
  | invoke (scrollElPresent : Bool) (lastMessageId : Int)
deriving DecidableEq, Repr

/-- Run a sequence of stimuli, collecting the ids for which the programmatic
scroll-to-bottom fired, in order. -/
def runScroll (s : ChatScrollState) : List ScrollEvent → ChatScrollState × List Int
  | [] => (s, [])
  | ScrollEvent.setAuto b :: es => runScroll { s with autoScroll := b } es
  | ScrollEvent.invoke el n :: es =>
    let r := autoScrollEffect s el n
    let rest := runScroll r.1 es
    (rest.1, if r.2 then n :: rest.2 else rest.2)

/-- The newest-id arguments of the invoke events, in order. -/
def invokeIds : List ScrollEvent → List Int
  | [] => []
  | ScrollEvent.setAuto _ :: es => invokeIds es
  | ScrollEvent.invoke _ n :: es => n :: invokeIds es

/-- The geometry of `document.scrollingElement` when a scroll effect runs. -/
structure ScrollGeometry where
  scrollHeight : Nat
  clientHeight : Nat
  scrollTop : Nat
deriving DecidableEq, Repr

/-- The viewport's distance from the bottom of the content:
`maxScrollTop - scrollEl.scrollTop` with
`maxScrollTop = scrollEl.scrollHeight - scrollEl.clientHeight`. -/
def bottomDistance (g : ScrollGeometry) : Nat :=
  g.scrollHeight - g.clientHeight - g.scrollTop

/-- The scroll-position effect (`useEffect` on `[pos]`):
`setAutoScroll(maxScrollTop - scrollEl.scrollTop < 64)`. -/
def posEffect (s : ChatScrollState) (g : ScrollGeometry) : ChatScrollState :=
  { s with autoScroll := bottomDistance g < 64 }

/-- The JavaScript `StrWhiteSpace` characters recognised by `trim()` and by
string-to-number conversion: the full ECMA-262 `WhiteSpace` production (TAB,
VT, FF, SPACE, NBSP, ZWNBSP and every Unicode Space_Separator code point —
U+1680, U+2000..U+200A, U+202F, U+205F, U+3000) together with the
`LineTerminator` production (LF, CR, LS, PS). -/
def isJsWhiteSpaceChar (c : Char) : Bool :=
  c == ' ' || c == '\t' || c == '\n' || c == '\r' || c == '\x0b' || c == '\x0c' ||
    c == '\u00A0' || c == '\u1680' ||
    c == '\u2000' || c == '\u2001' || c == '\u2002' || c == '\u2003' ||
    c == '\u2004' || c == '\u2005' || c == '\u2006' || c == '\u2007' ||
    c == '\u2008' || c == '\u2009' || c == '\u200A' ||
    c == '\u2028' || c == '\u2029' || c == '\u202F' || c == '\u205F' ||
    c == '\u3000' || c == '\uFEFF'

/-- Strip leading and trailing JS whitespace from a character list. -/
def jsTrimList (cs : List Char) : List Char :=
  ((cs.dropWhile isJsWhiteSpaceChar).reverse.dropWhile isJsWhiteSpaceChar).reverse

/-- JavaScript `String.prototype.trim`. -/
def jsTrim (s : String) : String :=
  (jsTrimList s.toList).asString

/-- The state touched by the send flow of `ChatPage`: the in-flight guard,
the compose buffer, the auto-scroll flag, the hook's reload counter, and the
contents posted to `chats/chatId/messages` so far (in order). -/
structure SendState where
  isSendingMessage : Bool
  composingMessage : String
  autoScroll : Bool
  reloadCounter : Nat
  posted : List String
deriving DecidableEq, Repr

/-- `send()` run to completion, with `success` telling whether the POST
resolved: an in-flight send returns immediately; otherwise the raw compose
buffer is posted, then on success `setAutoScroll(true)`, `reload()` and
`setComposingMessage('')` run, while on failure the error is only logged;
either way `setIsSendingMessage(false)` ends the call. -/
def send (s : SendState) (success : Bool) : SendState :=
  if s.isSendingMessage then s
  else
    let s1 : SendState :=
      { s with isSendingMessage := true, posted := s.posted ++ [s.composingMessage] }
    let s2 : SendState :=
      if success then
        { s1 with autoScroll := true, reloadCounter := s1.reloadCounter + 1,
                  composingMessage := "" }
      else s1
    { s2 with isSendingMessage := false }

/-- `handleKeyDown`: submits via `send()` exactly when no input-method
composition is in progress (`isComposing`, key code 229), the key is Enter,
and the trimmed compose buffer is non-empty. -/
def handleKeyDown (s : SendState) (isComposing : Bool) (keyCode : Nat)
    (key : String) (success : Bool) : SendState :=
  if !(isComposing || keyCode == 229) && key == "Enter"
      && !(jsTrim s.composingMessage == "") then
    send s success
  else s

/-- Between the start of a fetch and its resolution nothing mutates
`messages` (stale completions never touch it, and the active fetch is the
only one that can append), so the closure snapshot taken by `go()` always
agrees with the current `messages` value while that fetch is active. -/
def isHexDigitChar (c : Char) : Bool :=
  c.isDigit || ('a' ≤ c && c ≤ 'f') || ('A' ≤ c && c ≤ 'F')

def isOctalDigitChar (c : Char) : Bool :=
  '0' ≤ c && c ≤ '7'

def isBinaryDigitChar (c : Char) : Bool :=
  c == '0' || c == '1'

/-- `SignedInteger` of the exponent part: optional sign then at least one
decimal digit, consuming the whole remainder. -/
def signedDigits : List Char → Bool
  | '+' :: r => !r.isEmpty && r.all Char.isDigit
  | '-' :: r => !r.isEmpty && r.all Char.isDigit
  | r => !r.isEmpty && r.all Char.isDigit

/-- `ExponentPart`: `e` or `E` followed by a signed integer. -/
def exponentPart : List Char → Bool
  | 'e' :: r => signedDigits r
  | 'E' :: r => signedDigits r
  | _ => false

/-- An optional exponent part ending the literal. -/
def exponentOpt (cs : List Char) : Bool :=
  cs.isEmpty || exponentPart cs

/-- `StrUnsignedDecimalLiteral` of ECMAScript ToNumber: `Infinity`,
`digits [. digits] [exp]`, or `. digits [exp]`. -/
def strDecimalTail (cs : List Char) : Bool :=
  if cs == "Infinity".toList then true
  else
    let intPart := cs.takeWhile Char.isDigit
    let rest := cs.dropWhile Char.isDigit
    if intPart.isEmpty then
      match rest with
      | '.' :: r2 =>
        let frac := r2.takeWhile Char.isDigit
        let r3 := r2.dropWhile Char.isDigit
        !frac.isEmpty && exponentOpt r3
      | _ => false
    else
      match rest with
      | [] => true
      | '.' :: r2 => exponentOpt (r2.dropWhile Char.isDigit)
      | r => exponentPart r

/-- `NonDecimalIntegerLiteral`: `0x`/`0X` hex, `0o`/`0O` octal, `0b`/`0B`
binary, with at least one digit. -/
def nonDecimalIntLiteral : List Char → Bool
  | '0' :: c :: rest =>
    ((c == 'x' || c == 'X') && !rest.isEmpty && rest.all isHexDigitChar) ||
      ((c == 'o' || c == 'O') && !rest.isEmpty && rest.all isOctalDigitChar) ||
      ((c == 'b' || c == 'B') && !rest.isEmpty && rest.all isBinaryDigitChar)
  | _ => false

/-- `StrNumericLiteral` (after trimming): a non-decimal integer literal or an
optionally signed decimal literal. -/
def strNumericLiteral (cs : List Char) : Bool :=
  nonDecimalIntLiteral cs ||
    (match cs with
     | '+' :: r => strDecimalTail r
     | '-' :: r => strDecimalTail r
     | r => strDecimalTail r)

/-- `isNaN(Number(s))` for a string `s`: ECMAScript ToNumber trims JS
whitespace, maps the empty remainder to 0 (not NaN), and yields NaN exactly
when the remainder is not a `StrNumericLiteral`. -/
def jsNumberIsNaN (s : String) : Bool :=
  let cs := jsTrimList s.toList
  if cs.isEmpty then false else !(strNumericLiteral cs)

/-- The survey form fields touched by `handleNextQ` validation.  `avgHours`
is `''` (modelled `none`) when the number input was cleared; `level` is the
sparse self-rating array built by `setFieldValue('level.' + index, v)`,
holes modelled as `none`. -/
structure SurveyForm where
  name : String
  phone : String
  nickname : String
  gender : String
  height : Int
  weight : Int
  interests : List String
  avgHours : Option Int
  regularTime : List String
  level : List (Option String)
deriving DecidableEq, Repr

/-- Result of one `handleNextQ()` call: either the step index advances (with
the possibly updated form — step 3 resets `level`), or a notification blocks
it. -/
inductive NextQOutcome
  | advanced (qnum : Nat) (form : SurveyForm)
  | blocked (title : String) (message : String)
deriving DecidableEq, Repr

/-- The final `if (qnum < 6) setQnum(qnum + 1)` of `handleNextQ`. -/
def advanceQ (qnum : Nat) (f : SurveyForm) : NextQOutcome :=
  NextQOutcome.advanced (if qnum < 6 then qnum + 1 else qnum) f

/-- The `errorMessage` accumulation of `case 1` (blank checks, with `、`
separators after the first entry). -/
def step1ErrorMessage (f : SurveyForm) : String :=
  let e := if jsTrim f.name == "" then "姓名" else ""
  let e := if jsTrim f.phone == "" then e ++ (if e == "" then "手機" else "、手機") else e
  let e := if jsTrim f.nickname == "" then e ++ (if e == "" then "暱稱" else "、暱稱") else e
  let e := if jsTrim f.gender == "" then e ++ (if e == "" then "性別" else "、性別") else e
  e

/-- The `errorMessage` accumulation of `case 3`. -/
def step3ErrorMessage (f : SurveyForm) : String :=
  let e := ""
  let e := if f.interests.isEmpty then e ++ (if e == "" then "興趣" else "、興趣") else e
  let e := if f.avgHours == none then e ++ (if e == "" then "運動時長" else "、運動時長") else e
  let e := if f.regularTime.isEmpty then e ++ (if e == "" then "運動時段" else "、運動時段") else e
  e

/-- `handleNextQ()` of the survey page, as a function of the current step,
the privacy checkbox and the form values.  Step 4's completeness check is
`f.interests.length !== f.level.filter(() => true).length`, where `filter`
skips the holes of the sparse `level` array. -/
def handleNextQ (qnum : Nat) (privacyCheck : Bool) (f : SurveyForm) : NextQOutcome :=
  match qnum with
  | 0 =>
    if !privacyCheck then
      NextQOutcome.blocked "請詳閱隱私群政策！" "閱讀完記得勾選方框表示同意喔～"
    else advanceQ 0 f
  | 1 =>
    let errorMessage := step1ErrorMessage f
    if errorMessage != "" then
      NextQOutcome.blocked "尚有欄位未填寫！" (errorMessage ++ "不可空白")
    else if f.phone.length != 10 || jsNumberIsNaN f.phone
        || f.phone.toList.get? 0 != some '0' || f.phone.toList.get? 1 != some '9' then
      NextQOutcome.blocked "手機號碼不正確！" "請再檢查一次您的手機號碼"
    else advanceQ 1 f
  | 2 =>
    if f.height < 30 || f.weight < 15 then
      NextQOutcome.blocked "身高或體重可能不正確！" "請再檢查一次您輸入的身高、體重～"
    else advanceQ 2 f
  | 3 =>
    let errorMessage := step3ErrorMessage f
    if errorMessage != "" then
      NextQOutcome.blocked "尚有欄位未填寫！" (errorMessage ++ "不可空白")
    else if (match f.avgHours with
             | some h => decide ((168 : Int) ≤ h)
             | none => false) then
      NextQOutcome.blocked "每週平均時長錯誤！" "再檢查一次吧～"
    else advanceQ 3 { f with level := [] }
  | 4 =>
    if f.interests.length != (f.level.filterMap id).length then
      NextQOutcome.blocked "尚有欄位未填寫喔！" "再檢查一遍是否所有題目都填寫了吧！"
    else advanceQ 4 f
  | q => advanceQ q f

/-- Modelled from the spec: the `MessageType` constants come from
`@/constants`, which is not among the sources; the spec's data model says the
type tag distinguishes ordinary content messages (tag 0, per `m.type !== 0`
in the chat page) from the service events invite-created and user-joined,
so the two service tags are modelled as the distinct nonzero values 1 and 2. -/
def MessageType.InviteCreated : Nat := 1

/-- Modelled from the spec: see `MessageType.InviteCreated`. -/
def MessageType.UserJoined : Nat := 2

/-- `formatServiceMessage`: text only for the two known service types;
`undefined` (here `none`) otherwise. -/
def formatServiceMessage (m : Message) : Option String :=
  if m.type == MessageType.InviteCreated then some (m.sender.nickname ++ "已發起邀約")
  else if m.type == MessageType.UserJoined then some (m.sender.nickname ++ "已加入邀約")
  else none

/-- `String(x).padStart(n, c)`. -/
def padStart (n : Nat) (c : Char) (s : String) : String :=
  (List.replicate (n - s.length) c).asString ++ s

/-- `formatTime` of the chat page.  `Date#getHours`/`getMinutes` depend on
the environment's timezone, modelled as an offset in milliseconds added to
the epoch instant. -/
def formatTime (tzOffsetMs : Nat) (time : Nat) : String :=
  let lcl := time + tzOffsetMs
  let h0 := lcl / 3600000 % 24
  let m := lcl / 60000 % 60
  let amPm := if 12 ≤ h0 then "下午" else "上午"
  let h1 := h0 % 12
  let h := if h1 == 0 then 12 else h1
  amPm ++ " " ++ toString h ++ ":" ++ padStart 2 '0' (toString m)

/-- What the chat page renders for one message: a service bubble (event text
plus time) or a content bubble (sender name shown only for others). -/
inductive RenderedMessage
  | serviceBubble (text : Option String) (time : String)
  | contentBubble (isSelf : Bool) (senderName : Option String)
      (content : Option String) (time : String)
deriving DecidableEq, Repr

/-- The message-rendering branch of `ChatPage`:
`isSelf = m.from.id === user?.id`, `isService = m.type !== 0`, service
messages render `formatServiceMessage(m)` with the time, content messages
render the bubble with name (for others), content and time. -/
def renderMessage (tzOffsetMs : Nat) (userId : Option Nat) (m : Message) :
    RenderedMessage :=
  let isSelf := userId == some m.sender.id
  let isService := m.type != 0
  if isService then
    RenderedMessage.serviceBubble (formatServiceMessage m) (formatTime tzOffsetMs m.createdAt)
  else
    RenderedMessage.contentBubble isSelf
      (if isSelf then none else some m.sender.nickname)
      m.content (formatTime tzOffsetMs m.createdAt)

lemma active_snapshot_eq_messages {tr : List HookEvent} {s : HookState}
    (h : ReachableVia tr s) :
    ∀ f, s.active = some f → f.snapshot = s.messages := by
  induction h with
  | init =>
    intro f hf
    simp [initHookState] at hf
  | step hprev hstep ih =>
    rename_i tr s e s'
    intro f hf
    cases e with
    | mount =>
      simp only [hookStep, Option.some.injEq] at hstep
      subst hstep
      simp only [effectRun, Option.some.injEq] at hf
      simp [effectRun, ← hf]
    | chatChange =>
      simp only [hookStep, Option.some.injEq] at hstep
      subst hstep
      simp only [effectRun, Option.some.injEq] at hf
      simp [effectRun, ← hf]
    | manualReload =>
      simp only [hookStep, Option.some.injEq] at hstep
      subst hstep
      simp only [effectRun, Option.some.injEq] at hf
      simp [effectRun, ← hf]
    | timerFire =>
      simp only [hookStep] at hstep
      split at hstep
      · simp only [Option.some.injEq] at hstep
        subst hstep
        simp only [effectRun, Option.some.injEq] at hf
        simp [effectRun, ← hf]
      · exact absurd hstep (by simp)
    | resolveOk response =>
      simp only [hookStep] at hstep
      split at hstep
      · exact absurd hstep (by simp)
      · simp only [Option.some.injEq] at hstep
        subst hstep
        simp at hf
    | resolveErr e0 =>
      simp only [hookStep] at hstep
      split at hstep
      · exact absurd hstep (by simp)
      · simp only [Option.some.injEq] at hstep
        subst hstep
        simp at hf
    | staleResolveOk =>
      simp only [hookStep] at hstep
      split at hstep
      · simp only [Option.some.injEq] at hstep
        subst hstep
        exact ih f hf
      · exact absurd hstep (by simp)
    | staleResolveErr e0 =>
      simp only [hookStep] at hstep
      split at hstep
      · simp only [Option.some.injEq] at hstep
        subst hstep
        exact ih f hf
      · exact absurd hstep (by simp)

/-- As long as no cancelled fetch rejects, the 2000 ms interval is installed
only in states with no fetch in flight: every step except the unguarded
stale `catch` either disarms the timer or clears the active fetch. -/
lemma timer_armed_no_active {tr : List HookEvent} {s : HookState}
    (h : ReachableVia tr s) (hclean : ∀ e ∈ tr, isStaleErr e = false) :
    s.timerArmed = true → s.active = none := by
  induction h with
  | init =>
    intro harm
    simp [initHookState] at harm
  | step hprev hstep ih =>
    rename_i tr s e s'
    have hcleanTr : ∀ e' ∈ tr, isStaleErr e' = false := by
      intro e' he'
      exact hclean e' (List.mem_append_left _ he')
    have hcleanE : isStaleErr e = false :=
      hclean e (List.mem_append_right _ (List.mem_singleton.mpr rfl))
    intro harm
    cases e with
    | mount =>
      simp only [hookStep, Option.some.injEq] at hstep
      subst hstep
      simp [effectRun] at harm
    | chatChange =>
      simp only [hookStep, Option.some.injEq] at hstep
      subst hstep
      simp [effectRun] at harm
    | manualReload =>
      simp only [hookStep, Option.some.injEq] at hstep
      subst hstep
      simp [effectRun] at harm
    | timerFire =>
      simp only [hookStep] at hstep
      split at hstep
      · simp only [Option.some.injEq] at hstep
        subst hstep
        simp [effectRun] at harm
      · exact absurd hstep (by simp)
    | resolveOk response =>
      simp only [hookStep] at hstep
      split at hstep
      · exact absurd hstep (by simp)
      · simp only [Option.some.injEq] at hstep
        subst hstep
        rfl
    | resolveErr e0 =>
      simp only [hookStep] at hstep
      split at hstep
      · exact absurd hstep (by simp)
      · simp only [Option.some.injEq] at hstep
        subst hstep
        rfl
    | staleResolveOk =>
      simp only [hookStep] at hstep
      split at hstep
      · simp only [Option.some.injEq] at hstep
        subst hstep
        exact ih hcleanTr harm
      · exact absurd hstep (by simp)
    | staleResolveErr e0 =>
      simp [isStaleErr] at hcleanE

/-- C1 counterexample: the claim says a cancelled fetch that resolves *with
failure* leaves messages, loading flag and error value all unchanged.  On the
code it does not: after `mount` and a `chatId` change mid-flight the first
fetch is cancelled, yet when it rejects the unguarded `catch` still stores
the error and clears the loading flag (only `messages` survives untouched).
The state below is reachable, the cancelled fetch's rejection is enabled in
it, and it mutates both `error` (none to some 7) and `isLoading` (true to
false). -/
theorem C1_counterexample :
    ReachableVia [HookEvent.mount, HookEvent.chatChange]
      { isLoading := true, error := none, messages := none,
        active := some ⟨none⟩, staleCount := 1, timerArmed := false } ∧
    hookStep
      { isLoading := true, error := none, messages := none,
        active := some ⟨none⟩, staleCount := 1, timerArmed := false }
      (.staleResolveErr 7) =
      some
        { isLoading := false, error := some 7, messages := none,
          active := some ⟨none⟩, staleCount := 0, timerArmed := true } ∧
    (some 7 : Option Nat) ≠ none ∧ (false : Bool) ≠ true := by
  have h1 : ReachableVia [HookEvent.mount]
      { isLoading := true, error := none, messages := none,
        active := some ⟨none⟩, staleCount := 0, timerArmed := false } :=
    ReachableVia.step ReachableVia.init (by decide)
  have h2 : ReachableVia [HookEvent.mount, HookEvent.chatChange]
      { isLoading := true, error := none, messages := none,
        active := some ⟨none⟩, staleCount := 1, timerArmed := false } :=
    ReachableVia.step h1 (by decide)
  exact ⟨h2, by decide, by decide, by decide⟩

/-- C1 (amended): a cancelled fetch that resolves with *success* is fully
discarded — messages, loading flag and error value are left unchanged (hence
no scroll side effect either, since the scroll effects only react to
`messages`); but a cancelled fetch that *fails* still stores the failure as
the error value and clears the loading flag, leaving only `messages` (and
therefore the scroll behaviour) untouched. -/
theorem C1_cancelled_fetch_effect :
    (∀ s s' : HookState, hookStep s .staleResolveOk = some s' →
      s'.messages = s.messages ∧ s'.isLoading = s.isLoading ∧ s'.error = s.error) ∧
    (∀ (s s' : HookState) (e : Nat), hookStep s (.staleResolveErr e) = some s' →
      s'.messages = s.messages ∧ s'.error = some e ∧ s'.isLoading = false) := by
  constructor
  · intro s s' h
    simp only [hookStep] at h
    split at h
    · simp only [Option.some.injEq] at h
      subst h
      exact ⟨rfl, rfl, rfl⟩
    · exact absurd h (by simp)
  · intro s s' e h
    simp only [hookStep] at h
    split at h
    · simp only [Option.some.injEq] at h
      subst h
      exact ⟨rfl, rfl, rfl⟩
    · exact absurd h (by simp)

/-- Witness for `C1_cancelled_fetch_effect` at a concrete state with one
cancelled fetch pending. -/
theorem C1_cancelled_fetch_effect_witness :
    (({ isLoading := true, error := none, messages := none,
        active := none, staleCount := 0, timerArmed := false } : HookState).messages =
       ({ isLoading := true, error := none, messages := none,
          active := none, staleCount := 1, timerArmed := false } : HookState).messages ∧
     ({ isLoading := true, error := none, messages := none,
        active := none, staleCount := 0, timerArmed := false } : HookState).isLoading =
       ({ isLoading := true, error := none, messages := none,
          active := none, staleCount := 1, timerArmed := false } : HookState).isLoading ∧
     ({ isLoading := true, error := none, messages := none,
        active := none, staleCount := 0, timerArmed := false } : HookState).error =
       ({ isLoading := true, error := none, messages := none,
          active := none, staleCount := 1, timerArmed := false } : HookState).error) ∧
    (({ isLoading := false, error := some 7, messages := none,
        active := none, staleCount := 0, timerArmed := true } : HookState).messages =
       ({ isLoading := true, error := none, messages := none,
          active := none, staleCount := 1, timerArmed := false } : HookState).messages ∧
     ({ isLoading := false, error := some 7, messages := none,
        active := none, staleCount := 0, timerArmed := true } : HookState).error = some 7 ∧
     ({ isLoading := false, error := some 7, messages := none,
        active := none, staleCount := 0, timerArmed := true } : HookState).isLoading = false) :=
  ⟨C1_cancelled_fetch_effect.1
      { isLoading := true, error := none, messages := none,
        active := none, staleCount := 1, timerArmed := false }
      { isLoading := true, error := none, messages := none,
        active := none, staleCount := 0, timerArmed := false } (by decide),
   C1_cancelled_fetch_effect.2
      { isLoading := true, error := none, messages := none,
        active := none, staleCount := 1, timerArmed := false }
      { isLoading := false, error := some 7, messages := none,
        active := none, staleCount := 0, timerArmed := true } 7 (by decide)⟩

/-- In a strictly ascending message list every id is bounded by the id of the
last element, which is what `go()` uses as the `sinceId` cursor. -/
lemma id_le_computeSinceId :
    ∀ (l : List Message), msgsSorted l → ∀ a ∈ l, a.id ≤ computeSinceId (some l)
  | [], _, a, ha => by simp at ha
  | [x], _, a, ha => by
    have hax : a = x := by simpa using ha
    subst hax
    simp [computeSinceId, List.getLast?]
  | x :: y :: ys, hs, a, ha => by
    have hpc := List.pairwise_cons.mp hs
    have hsince :
        computeSinceId (some (x :: y :: ys)) = computeSinceId (some (y :: ys)) := by
      simp [computeSinceId, List.getLast?_cons_cons]
    rcases List.mem_cons.mp ha with h | h
    · subst h
      have hne : (y :: ys) ≠ [] := by simp
      have hgl : (y :: ys).getLast? = some ((y :: ys).getLast hne) :=
        List.getLast?_eq_getLast_of_ne_nil hne
      have hgm : (y :: ys).getLast hne ∈ y :: ys := List.getLast_mem hne
      have hlt : a.id < ((y :: ys).getLast hne).id := hpc.1 _ hgm
      rw [hsince]
      simp only [computeSinceId, hgl]
      omega
    · rw [hsince]
      exact id_le_computeSinceId (y :: ys) hpc.2 a h

/-- Appending a server response whose ids all exceed the current cursor to a
strictly ascending list keeps it strictly ascending. -/
lemma msgsSorted_append {l r : List Message} (hl : msgsSorted l) (hr : msgsSorted r)
    (hgt : ∀ x ∈ r, computeSinceId (some l) < x.id) : msgsSorted (l ++ r) := by
  unfold msgsSorted at *
  rw [List.pairwise_append]
  refine ⟨hl, hr, ?_⟩
  intro a ha b hb
  exact lt_of_le_of_lt (id_le_computeSinceId l hl a ha) (hgt b hb)

/-- C2 (confirmed): a fetch cycle computes `sinceId` as the id of the last
locally known message (0 when messages are `null` or empty) from the very
`messages` value current when the request was issued; on success it appends
exactly when this is the very first fetch (snapshot still `null`) or the
response is non-empty — so an empty response on the very first fetch turns
`messages` from `null` into the empty list and clears the loading flag — and
the new list is always the old list followed by the response; if the old
list was strictly ascending and the response honours the server contract
(strictly ascending, all ids above the cursor), the result stays strictly
ascending (hence no duplicates, no reordering). -/
theorem C2_fetch_cycle (tr : List HookEvent) (s : HookState) (f : ActiveFetch)
    (response : List Message) (s' : HookState)
    (hr : ReachableVia tr s) (hf : s.active = some f)
    (hstep : hookStep s (.resolveOk response) = some s') :
    computeSinceId f.snapshot = computeSinceId s.messages ∧
    computeSinceId none = 0 ∧
    computeSinceId (some []) = 0 ∧
    (∀ (l : List Message) (m : Message), l.getLast? = some m →
      computeSinceId (some l) = m.id) ∧
    ((s.messages = none ∨ response ≠ []) →
      s'.messages = some (s.messages.getD [] ++ response)) ∧
    (s.messages ≠ none → response = [] → s'.messages = s.messages) ∧
    (s.messages = none → response = [] → s'.messages = some []) ∧
    s'.messages ≠ none ∧
    s'.isLoading = false ∧
    s'.messages.getD [] = s.messages.getD [] ++ response ∧
    (msgsSorted (s.messages.getD []) → msgsSorted response →
      (∀ x ∈ response, computeSinceId s.messages < x.id) →
      msgsSorted (s'.messages.getD [])) := by
  have hsnap : f.snapshot = s.messages := active_snapshot_eq_messages hr f hf
  simp only [hookStep, hf, Option.some.injEq] at hstep
  subst hstep
  refine ⟨by rw [hsnap], rfl, rfl, ?_, ?_, ?_, ?_, ?_, rfl, ?_, ?_⟩
  · intro l m h
    simp [computeSinceId, h]
  · intro hor
    simp only [hsnap]
    rcases hor with h | h
    · simp [h]
    · have : response.isEmpty = false := by
        simpa [List.isEmpty_iff] using h
      simp [this]
  · intro hne hresp
    subst hresp
    simp only [hsnap]
    cases hm : s.messages with
    | none => exact absurd hm hne
    | some l => simp
  · intro hm hresp
    subst hresp
    simp [hsnap, hm]
  · simp only [hsnap]
    cases hm : s.messages with
    | none => simp
    | some l =>
      cases hresp : response.isEmpty with
      | true => simp [hresp]
      | false => simp [hresp]
  · simp only [hsnap]
    cases hm : s.messages with
    | none => simp
    | some l =>
      cases hresp : response.isEmpty with
      | true =>
        have : response = [] := by simpa [List.isEmpty_iff] using hresp
        subst this
        simp
      | false => simp [hresp]
  · intro hsl hsr hgt
    have hmain :
        (if f.snapshot.isNone || !response.isEmpty then
            some (s.messages.getD [] ++ response)
          else s.messages).getD [] = s.messages.getD [] ++ response := by
      simp only [hsnap]
      cases hm : s.messages with
      | none => simp
      | some l =>
        cases hresp : response.isEmpty with
        | true =>
          have : response = [] := by simpa [List.isEmpty_iff] using hresp
          subst this
          simp
        | false => simp [hresp]
    rw [hmain]
    cases hm : s.messages with
    | none =>
      have h0 : computeSinceId s.messages = 0 := by simp [hm, computeSinceId]
      simp only [hm, Option.getD_none] at hsl ⊢
      simpa using hsr
    | some l =>
      have : computeSinceId (some l) = computeSinceId s.messages := by rw [hm]
      rw [hm] at hsl hgt
      simp only [Option.getD_some] at hsl hgt ⊢
      exact msgsSorted_append hsl hsr hgt

/-- Witness for `C2_fetch_cycle`: after `mount`, the first fetch resolves
with one message; the new local list is the old (empty) one followed by the
response and is strictly ascending. -/
theorem C2_fetch_cycle_witness :
    ({ isLoading := false, error := none,
       messages := some [⟨1, ⟨2, "u"⟩, 0, 0, some "hi"⟩],
       active := none, staleCount := 0, timerArmed := true } : HookState).messages.getD [] =
      ({ isLoading := true, error := none, messages := none,
         active := some ⟨none⟩, staleCount := 0,
         timerArmed := false } : HookState).messages.getD []
        ++ [⟨1, ⟨2, "u"⟩, 0, 0, some "hi"⟩] ∧
    msgsSorted
      (({ isLoading := false, error := none,
          messages := some [⟨1, ⟨2, "u"⟩, 0, 0, some "hi"⟩],
          active := none, staleCount := 0,
          timerArmed := true } : HookState).messages.getD []) := by
  have hreach : ReachableVia [HookEvent.mount]
      { isLoading := true, error := none, messages := none,
        active := some ⟨none⟩, staleCount := 0, timerArmed := false } :=
    ReachableVia.step ReachableVia.init (by decide)
  have h := C2_fetch_cycle [HookEvent.mount]
    { isLoading := true, error := none, messages := none,
      active := some ⟨none⟩, staleCount := 0, timerArmed := false }
    ⟨none⟩ [⟨1, ⟨2, "u"⟩, 0, 0, some "hi"⟩]
    { isLoading := false, error := none,
      messages := some [⟨1, ⟨2, "u"⟩, 0, 0, some "hi"⟩],
      active := none, staleCount := 0, timerArmed := true }
    hreach rfl (by decide)
  obtain ⟨-, -, -, -, -, -, -, -, -, h10, h11⟩ := h
  exact ⟨h10, h11 (by decide) (by decide) (by decide)⟩

/-- C3 counterexample: the claim says the poll timer never fires while a
fetch is in flight.  Reachable refutation: `mount` starts fetch 1; a `chatId`
change cancels it and starts fetch 2; the cancelled fetch 1 rejects, and its
unguarded `catch` clears `isLoading`, which re-installs the 2000 ms interval
while fetch 2 is still in flight.  In that state the timer is armed, a fetch
is active, firing the timer is enabled, and doing so issues a new fetch while
the previous one (now cancelled, `staleCount = 1`) is still pending. -/
theorem C3_counterexample :
    ReachableVia [HookEvent.mount, HookEvent.chatChange, HookEvent.staleResolveErr 5]
      { isLoading := false, error := some 5, messages := none,
        active := some ⟨none⟩, staleCount := 0, timerArmed := true } ∧
    ({ isLoading := false, error := some 5, messages := none,
        active := some ⟨none⟩, staleCount := 0, timerArmed := true } : HookState).active.isSome
      = true ∧
    ({ isLoading := false, error := some 5, messages := none,
        active := some ⟨none⟩, staleCount := 0, timerArmed := true } : HookState).timerArmed
      = true ∧
    hookStep
      { isLoading := false, error := some 5, messages := none,
        active := some ⟨none⟩, staleCount := 0, timerArmed := true } .timerFire =
      some
        { isLoading := true, error := none, messages := none,
          active := some ⟨none⟩, staleCount := 1, timerArmed := false } := by
  have h1 : ReachableVia [HookEvent.mount]
      { isLoading := true, error := none, messages := none,
        active := some ⟨none⟩, staleCount := 0, timerArmed := false } :=
    ReachableVia.step ReachableVia.init (by decide)
  have h2 : ReachableVia [HookEvent.mount, HookEvent.chatChange]
      { isLoading := true, error := none, messages := none,
        active := some ⟨none⟩, staleCount := 1, timerArmed := false } :=
    ReachableVia.step h1 (by decide)
  have h3 : ReachableVia [HookEvent.mount, HookEvent.chatChange, HookEvent.staleResolveErr 5]
      { isLoading := false, error := some 5, messages := none,
        active := some ⟨none⟩, staleCount := 0, timerArmed := true } :=
    ReachableVia.step h2 (by decide)
  exact ⟨h3, by decide, by decide, by decide⟩

/-- C3 (amended): in every run in which no cancelled fetch rejects, the 2000
ms poll timer is armed only in states with no fetch in flight, so each timer
firing re-triggers the effect from an idle state — at most one poll-initiated
fetch is in flight at any time.  (When a cancelled fetch does reject, its
unguarded `catch` clears `isLoading` and re-arms the timer early; see the
counterexample.) -/
theorem C3_poll_single_flight (tr : List HookEvent) (s : HookState)
    (h : ReachableVia tr s) (hclean : ∀ e ∈ tr, isStaleErr e = false) :
    (s.timerArmed = true → s.active = none) ∧
    (∀ s', hookStep s .timerFire = some s' → s.active = none ∧ s' = effectRun s) := by
  refine ⟨timer_armed_no_active h hclean, ?_⟩
  intro s' hs
  simp only [hookStep] at hs
  split at hs
  · rename_i harm
    simp only [Option.some.injEq] at hs
    exact ⟨timer_armed_no_active h hclean harm, hs.symm⟩
  · exact absurd hs (by simp)

/-- Witness for `C3_poll_single_flight`: after `mount` and a successful
empty first response, the state is idle with the timer armed, and the
theorem yields that no fetch is active there. -/
theorem C3_poll_single_flight_witness :
    ({ isLoading := false, error := none, messages := some [],
        active := none, staleCount := 0, timerArmed := true } : HookState).active = none := by
  have h1 : ReachableVia [HookEvent.mount]
      { isLoading := true, error := none, messages := none,
        active := some ⟨none⟩, staleCount := 0, timerArmed := false } :=
    ReachableVia.step ReachableVia.init (by decide)
  have h2 : ReachableVia [HookEvent.mount, HookEvent.resolveOk []]
      { isLoading := false, error := none, messages := some [],
        active := none, staleCount := 0, timerArmed := true } :=
    ReachableVia.step h1 (by decide)
  exact (C3_poll_single_flight [HookEvent.mount, HookEvent.resolveOk []]
    { isLoading := false, error := none, messages := some [],
      active := none, staleCount := 0, timerArmed := true } h2 (by decide)).1 rfl

/-- C4 (confirmed): when the active (not cancelled) fetch fails, the
previously fetched messages are retained unchanged (nothing is appended),
the failure is stored as the error value, and polling is not halted: the
resulting state re-arms the interval, firing it is enabled, and the effect it
triggers starts a new fetch whose `sinceId` snapshot is the retained message
list. -/
theorem C4_failure_keeps_polling (s : HookState) (f : ActiveFetch) (e : Nat)
    (h : s.active = some f) :
    hookStep s (.resolveErr e) =
      some { s with active := none, error := some e, isLoading := false, timerArmed := true } ∧
    ({ s with active := none, error := some e, isLoading := false,
              timerArmed := true } : HookState).messages = s.messages ∧
    hookStep
      { s with active := none, error := some e, isLoading := false, timerArmed := true }
      .timerFire =
      some (effectRun
        { s with active := none, error := some e, isLoading := false, timerArmed := true }) ∧
    (effectRun
      { s with active := none, error := some e, isLoading := false,
               timerArmed := true }).active = some ⟨s.messages⟩ := by
  refine ⟨?_, rfl, rfl, rfl⟩
  simp only [hookStep, h]

/-- When the newest id is non-decreasing over the run and bounded below by
the recorded id, the fired ids are strictly increasing (each id fires at most
once) and all exceed the initially recorded id. -/
theorem runScroll_fired_increasing :
    ∀ (es : List ScrollEvent) (s : ChatScrollState),
      (invokeIds es).Pairwise (fun a b => a ≤ b) →
      (∀ i ∈ invokeIds es, s.lastAutoScrolledMessageId ≤ i) →
      (runScroll s es).2.Pairwise (fun a b => a < b) ∧
        ∀ j ∈ (runScroll s es).2, s.lastAutoScrolledMessageId < j
  | [], s, _, _ => by simp [runScroll]
  | ScrollEvent.setAuto b :: es, s, hmono, hlb => by
    have hmono' : (invokeIds es).Pairwise (fun a b => a ≤ b) := by
      simpa [invokeIds] using hmono
    have hlb' : ∀ i ∈ invokeIds es,
        ({ s with autoScroll := b } : ChatScrollState).lastAutoScrolledMessageId ≤ i := by
      intro i hi
      exact hlb i (by simpa [invokeIds] using hi)
    have ih := runScroll_fired_increasing es { s with autoScroll := b } hmono' hlb'
    simpa [runScroll] using ih
  | ScrollEvent.invoke el n :: es, s, hmono, hlb => by
    have hpc := List.pairwise_cons.mp (by simpa [invokeIds] using hmono)
    have hlbn : s.lastAutoScrolledMessageId ≤ n := hlb n (by simp [invokeIds])
    have hlbtail : ∀ i ∈ invokeIds es, s.lastAutoScrolledMessageId ≤ i := by
      intro i hi
      exact hlb i (by simp [invokeIds, hi])
    by_cases hfire :
        (s.autoScroll && el && (n != s.lastAutoScrolledMessageId)) = true
    · have hne : n ≠ s.lastAutoScrolledMessageId := by
        have := (Bool.and_eq_true _ _).mp hfire |>.2
        simpa [bne_iff_ne] using this
      have hlt : s.lastAutoScrolledMessageId < n :=
        lt_of_le_of_ne hlbn (Ne.symm hne)
      have ih := runScroll_fired_increasing es
        { s with lastAutoScrolledMessageId := n } hpc.2
        (by intro i hi; exact hpc.1 i hi)
      constructor
      · simp only [runScroll, autoScrollEffect, hfire, if_pos]
        exact List.pairwise_cons.mpr ⟨fun j hj => ih.2 j hj, ih.1⟩
      · intro j hj
        simp only [runScroll, autoScrollEffect, hfire, if_pos, List.mem_cons] at hj
        rcases hj with h | h
        · exact h ▸ hlt
        · exact lt_trans hlt (ih.2 j h)
    · have ih := runScroll_fired_increasing es s hpc.2 hlbtail
      have hred : runScroll s (ScrollEvent.invoke el n :: es) = runScroll s es := by
        simp [runScroll, autoScrollEffect, hfire]
      rw [hred]
      exact ih

/-- C5 (confirmed): while auto-scroll is disabled the effect never fires and
changes nothing; while enabled with the scrolling element present it fires
exactly when the newest id differs from the recorded one, recording the
triggering id, and a run whose newest ids are non-decreasing and non-negative
(as `lastMessageIdOf` always is) fires at most once per distinct id (the
fired ids are strictly increasing); the first-load effect fires only while
`firstScroll` is set, clears it on firing (so it fires exactly once),
ignores the enabled/disabled flag, and fires for the first present,
non-loading message list. -/
theorem C5_autoscroll_policy :
    (∀ (s : ChatScrollState) (el : Bool) (n : Int),
      s.autoScroll = false → autoScrollEffect s el n = (s, false)) ∧
    (∀ (s : ChatScrollState) (n : Int),
      s.autoScroll = true → n ≠ s.lastAutoScrolledMessageId →
      autoScrollEffect s true n = ({ s with lastAutoScrolledMessageId := n }, true)) ∧
    (∀ (s : ChatScrollState) (el : Bool) (n : Int),
      n = s.lastAutoScrolledMessageId → autoScrollEffect s el n = (s, false)) ∧
    (∀ es : List ScrollEvent,
      (invokeIds es).Pairwise (fun a b => a ≤ b) →
      (∀ i ∈ invokeIds es, 0 ≤ i) →
      (runScroll initChatScrollState es).2.Pairwise (fun a b => a < b)) ∧
    (∀ ms : Option (List Message), 0 ≤ lastMessageIdOf ms) ∧
    (∀ (s : ChatScrollState) (mp il el : Bool),
      s.firstScroll = false → firstScrollEffect s mp il el = (s, false)) ∧
    (∀ (s : ChatScrollState) (mp il el : Bool),
      (firstScrollEffect s mp il el).2 = true →
      (firstScrollEffect s mp il el).1.firstScroll = false) ∧
    (∀ (s : ChatScrollState) (b mp il el : Bool),
      (firstScrollEffect { s with autoScroll := b } mp il el).2 =
        (firstScrollEffect s mp il el).2) ∧
    (∀ s : ChatScrollState, s.firstScroll = true →
      firstScrollEffect s true false true = ({ s with firstScroll := false }, true)) := by
  refine ⟨?_, ?_, ?_, ?_, ?_, ?_, ?_, ?_, ?_⟩
  · intro s el n h
    simp [autoScrollEffect, h]
  · intro s n h hne
    simp [autoScrollEffect, h, hne]
  · intro s el n h
    simp [autoScrollEffect, h]
  · intro es hmono hnn
    refine (runScroll_fired_increasing es initChatScrollState hmono ?_).1
    intro i hi
    have : (0 : Int) ≤ i := hnn i hi
    have hinit :
        (initChatScrollState.lastAutoScrolledMessageId : Int) = -1 := rfl
    omega
  · intro ms
    cases ms with
    | none => simp [lastMessageIdOf]
    | some l =>
      cases h : l.getLast? with
      | none => simp [lastMessageIdOf, h]
      | some m => simp [lastMessageIdOf, h]
  · intro s mp il el h
    simp [firstScrollEffect, h]
  · intro s mp il el h
    by_cases hc : (s.firstScroll && mp && !il && el) = true
    · simp [firstScrollEffect, hc]
    · simp [firstScrollEffect, hc] at h
  · intro s b mp il el
    by_cases hc : (s.firstScroll && mp && !il && el) = true
    · simp [firstScrollEffect, hc]
    · simp [firstScrollEffect, hc]
  · intro s h
    simp [firstScrollEffect, h]

/-- Witness for `C5_autoscroll_policy` at concrete states and a concrete
run (ids 0, 0, 3: the repeated id fires once). -/
theorem C5_autoscroll_policy_witness :
    autoScrollEffect ⟨false, false, -1⟩ true 5 = (⟨false, false, -1⟩, false) ∧
    autoScrollEffect ⟨true, true, -1⟩ true 5 = (⟨true, true, 5⟩, true) ∧
    autoScrollEffect ⟨true, true, 5⟩ true 5 = (⟨true, true, 5⟩, false) ∧
    (runScroll initChatScrollState
      [ScrollEvent.invoke true 0, ScrollEvent.invoke true 0,
        ScrollEvent.invoke true 3]).2.Pairwise (fun a b => a < b) ∧
    0 ≤ lastMessageIdOf (some [⟨4, ⟨2, "u"⟩, 0, 0, none⟩]) ∧
    firstScrollEffect ⟨false, true, -1⟩ true false true = (⟨false, true, -1⟩, false) ∧
    (firstScrollEffect ⟨true, true, -1⟩ true false true).1.firstScroll = false ∧
    (firstScrollEffect ⟨true, false, -1⟩ true false true).2 =
      (firstScrollEffect ⟨true, true, -1⟩ true false true).2 ∧
    firstScrollEffect ⟨true, true, -1⟩ true false true = (⟨false, true, -1⟩, true) := by
  obtain ⟨h1, h2, h3, h4, h5, h6, h7, h8, h9⟩ := C5_autoscroll_policy
  refine ⟨h1 ⟨false, false, -1⟩ true 5 rfl, h2 ⟨true, true, -1⟩ 5 rfl (by decide),
    h3 ⟨true, true, 5⟩ true 5 rfl, h4 _ (by decide) (by decide), h5 _,
    h6 ⟨false, true, -1⟩ true false true rfl,
    h7 ⟨true, true, -1⟩ true false true (by decide), ?_,
    h9 ⟨true, true, -1⟩ rfl⟩
  exact h8 ⟨true, true, -1⟩ false true false true

/-- Witness for `C4_failure_keeps_polling` at a concrete in-flight state. -/
theorem C4_failure_keeps_polling_witness :
    hookStep
      { isLoading := true, error := none, messages := some [],
        active := some ⟨some []⟩, staleCount := 0, timerArmed := false }
      (.resolveErr 3) =
      some
        { isLoading := false, error := some 3, messages := some [],
          active := none, staleCount := 0, timerArmed := true } :=
  (C4_failure_keeps_polling
    { isLoading := true, error := none, messages := some [],
      active := some ⟨some []⟩, staleCount := 0, timerArmed := false }
    ⟨some []⟩ 3 rfl).1

/-- C6 counterexample: the claim says auto-scroll becomes disabled exactly
when the distance from the bottom *exceeds* the 64-unit threshold and
enabled whenever the distance is within it.  At distance exactly 64 (which
does not exceed 64) the code computes `64 < 64`, i.e. disabled. -/
theorem C6_counterexample :
    bottomDistance ⟨164, 100, 0⟩ = 64 ∧
    ¬ (64 : Nat) > 64 ∧
    (posEffect initChatScrollState ⟨164, 100, 0⟩).autoScroll = false := by
  decide

/-- C6 (amended): after a user-initiated scroll, auto-scroll is disabled
exactly when the distance from the bottom is at least 64 units, and enabled
exactly when it is strictly below 64; and a successful send while no send is
in flight forces auto-scroll enabled. -/
theorem C6_scroll_threshold :
    (∀ (s : ChatScrollState) (g : ScrollGeometry),
      (posEffect s g).autoScroll = false ↔ 64 ≤ bottomDistance g) ∧
    (∀ (s : ChatScrollState) (g : ScrollGeometry),
      (posEffect s g).autoScroll = true ↔ bottomDistance g < 64) ∧
    (∀ s : SendState, s.isSendingMessage = false → (send s true).autoScroll = true) := by
  refine ⟨?_, ?_, ?_⟩
  · intro s g
    simp [posEffect]
  · intro s g
    simp [posEffect]
  · intro s h
    simp [send, h]

/-- Witness for `C6_scroll_threshold` at concrete geometries (distances 64
and 14) and a concrete idle send state. -/
theorem C6_scroll_threshold_witness :
    ((posEffect initChatScrollState ⟨164, 100, 0⟩).autoScroll = false ↔
      64 ≤ bottomDistance ⟨164, 100, 0⟩) ∧
    ((posEffect initChatScrollState ⟨164, 100, 50⟩).autoScroll = true ↔
      bottomDistance ⟨164, 100, 50⟩ < 64) ∧
    (send ⟨false, "hello", false, 0, []⟩ true).autoScroll = true :=
  ⟨C6_scroll_threshold.1 initChatScrollState ⟨164, 100, 0⟩,
   C6_scroll_threshold.2.1 initChatScrollState ⟨164, 100, 50⟩,
   C6_scroll_threshold.2.2 ⟨false, "hello", false, 0, []⟩ rfl⟩

/-- C7 (confirmed): submitting with a non-empty trimmed draft while no send
is in flight posts the raw draft; on success the compose buffer clears,
auto-scroll is forced enabled and the reload counter is bumped; on failure
everything but the posted-request log is left intact.  Submitting with a
draft whose trim is empty, or while a send is in flight, changes nothing and
posts nothing. -/
theorem C7_send_flow :
    (∀ s : SendState, s.isSendingMessage = false → jsTrim s.composingMessage ≠ "" →
      handleKeyDown s false 13 "Enter" true =
        { s with posted := s.posted ++ [s.composingMessage], autoScroll := true,
                 reloadCounter := s.reloadCounter + 1, composingMessage := "" } ∧
      handleKeyDown s false 13 "Enter" false =
        { s with posted := s.posted ++ [s.composingMessage] }) ∧
    (∀ (s : SendState) (c : Bool) (k : Nat) (key : String) (succ : Bool),
      jsTrim s.composingMessage = "" → handleKeyDown s c k key succ = s) ∧
    (∀ (s : SendState) (c : Bool) (k : Nat) (key : String) (succ : Bool),
      s.isSendingMessage = true → handleKeyDown s c k key succ = s) ∧
    (∀ (s : SendState) (succ : Bool), s.isSendingMessage = true → send s succ = s) := by
  refine ⟨?_, ?_, ?_, ?_⟩
  · intro s h htrim
    constructor
    · simp [handleKeyDown, send, h, htrim]
    · simp [handleKeyDown, send, h, htrim]
  · intro s c k key succ htrim
    simp [handleKeyDown, htrim]
  · intro s c k key succ h
    unfold handleKeyDown
    split
    · simp [send, h]
    · rfl
  · intro s succ h
    simp [send, h]

/-- Witness for `C7_send_flow` at concrete states: a successful and a failed
submission of the draft `" hi "`, a whitespace-only draft (both ASCII spaces
and a single full-width U+3000 space, which `trim()` also strips), and an
in-flight send. -/
theorem C7_send_flow_witness :
    (handleKeyDown ⟨false, " hi ", false, 0, []⟩ false 13 "Enter" true =
      ⟨false, "", true, 1, [" hi "]⟩ ∧
     handleKeyDown ⟨false, " hi ", false, 0, []⟩ false 13 "Enter" false =
      ⟨false, " hi ", false, 0, [" hi "]⟩) ∧
    handleKeyDown ⟨false, "   ", true, 2, []⟩ false 13 "Enter" true =
      ⟨false, "   ", true, 2, []⟩ ∧
    handleKeyDown ⟨false, "　", false, 0, []⟩ false 13 "Enter" true =
      ⟨false, "　", false, 0, []⟩ ∧
    handleKeyDown ⟨true, "draft", false, 0, []⟩ false 13 "Enter" true =
      ⟨true, "draft", false, 0, []⟩ ∧
    send ⟨true, "draft", false, 0, []⟩ true = ⟨true, "draft", false, 0, []⟩ :=
  ⟨C7_send_flow.1 ⟨false, " hi ", false, 0, []⟩ rfl (by decide),
   C7_send_flow.2.1 ⟨false, "   ", true, 2, []⟩ false 13 "Enter" true (by decide),
   C7_send_flow.2.1 ⟨false, "　", false, 0, []⟩ false 13 "Enter" true (by decide),
   C7_send_flow.2.2.1 ⟨true, "draft", false, 0, []⟩ false 13 "Enter" true rfl,
   C7_send_flow.2.2.2 ⟨true, "draft", false, 0, []⟩ true rfl⟩

/-- C9 (confirmed): step 4 advances (to step 5, form unchanged) exactly when
the number of selected interests equals the number of collected self-ratings
(holes of the sparse `level` array do not count); with interests
`["1","2"]`, the single rating `["3"]` blocks and `["3","4"]` advances. -/
theorem C9_step4_completeness :
    (∀ (f : SurveyForm) (p : Bool),
      handleNextQ 4 p f = NextQOutcome.advanced 5 f ↔
        f.interests.length = (f.level.filterMap id).length) ∧
    handleNextQ 4 true
      ⟨"", "", "", "", 160, 50, ["1", "2"], some 10, [], [some "3"]⟩ =
      NextQOutcome.blocked "尚有欄位未填寫喔！" "再檢查一遍是否所有題目都填寫了吧！" ∧
    handleNextQ 4 true
      ⟨"", "", "", "", 160, 50, ["1", "2"], some 10, [], [some "3", some "4"]⟩ =
      NextQOutcome.advanced 5
        ⟨"", "", "", "", 160, 50, ["1", "2"], some 10, [], [some "3", some "4"]⟩ := by
  refine ⟨?_, by decide, by decide⟩
  intro f p
  constructor
  · intro h
    by_cases hc : (f.interests.length != (f.level.filterMap id).length) = true
    · simp [handleNextQ, hc] at h
    · rw [Bool.not_eq_true, bne_eq_false_iff_eq] at hc
      exact hc
  · intro h
    have hc : (f.interests.length != (f.level.filterMap id).length) = false := by
      simp [h]
    simp [handleNextQ, hc, advanceQ]

/-- Witness for `C9_step4_completeness`: the equal-cardinality direction of
the iff at the concrete two-interest, two-rating form. -/
theorem C9_step4_completeness_witness :
    handleNextQ 4 false
      ⟨"", "", "", "", 160, 50, ["5", "7"], some 10, [], [some "1", some "2"]⟩ =
      NextQOutcome.advanced 5
        ⟨"", "", "", "", 160, 50, ["5", "7"], some 10, [], [some "1", some "2"]⟩ :=
  (C9_step4_completeness.1
    ⟨"", "", "", "", 160, 50, ["5", "7"], some 10, [], [some "1", some "2"]⟩
    false).mpr (by decide)

/-- C10 (confirmed): for a message whose type is neither `InviteCreated` nor
`UserJoined`, `formatServiceMessage` yields no text, and since the chat page
treats every nonzero type as a service message, such an unknown-type message
renders as a service bubble whose event text is `undefined` (only the time
line remains). -/
theorem C10_unknown_type_renders_empty_service (m : Message) (tz : Nat)
    (u : Option Nat) (h0 : m.type ≠ 0)
    (h1 : m.type ≠ MessageType.InviteCreated)
    (h2 : m.type ≠ MessageType.UserJoined) :
    formatServiceMessage m = none ∧
    renderMessage tz u m =
      RenderedMessage.serviceBubble none (formatTime tz m.createdAt) := by
  have hf : formatServiceMessage m = none := by
    have hb1 : (m.type == MessageType.InviteCreated) = false := by
      simpa [bne_iff_ne] using h1
    have hb2 : (m.type == MessageType.UserJoined) = false := by
      simpa [bne_iff_ne] using h2
    simp [formatServiceMessage, hb1, hb2]
  have hs : (m.type != 0) = true := by simpa [bne_iff_ne] using h0
  exact ⟨hf, by simp [renderMessage, hs, hf]⟩

/-- Witness for `C10_unknown_type_renders_empty_service` at a concrete
message of the unknown type 5. -/
theorem C10_unknown_type_witness :
    formatServiceMessage ⟨9, ⟨2, "u"⟩, 0, 5, none⟩ = none ∧
    renderMessage 0 none ⟨9, ⟨2, "u"⟩, 0, 5, none⟩ =
      RenderedMessage.serviceBubble none (formatTime 0 0) :=
  C10_unknown_type_renders_empty_service ⟨9, ⟨2, "u"⟩, 0, 5, none⟩ 0 none
    (by decide) (by decide) (by decide)
